import Mathlib

/-!
Shallow embedding of the SystemV shared-memory wrapper in
src/src/sys/system_v/shm.rs.

Modelling conventions:
- pointers and addresses are Nat, with 0 standing for the null pointer;
- each wrapper function takes the raw outcome of its single underlying
  syscall (return value as Int with the sentinel -1 meaning failure, and
  the errno current at that point) as explicit oracle parameters, and
  returns its result together with the list of raw syscall invocations it
  performed, recording exactly the argument values handed to libc;
- bit-set flag types carry their raw bit pattern, composed with Nat.lor
  exactly as the source composes them with the | operator.
-/

namespace SysVShm

/-- Model of std::ffi::c_void (re-exported by libc as c_void): an enum with
two hidden variants. Both constructors exist in the upstream definition but
are marked unstable and doc-hidden there, so no caller of this crate on
stable Rust can name either of them. -/
inductive CVoid where
  | variant1
  | variant2
deriving DecidableEq

/-- Abstract model of libc::shmid_ds. The wrapper treats it as an opaque
record: it never reads or writes its fields, only moves whole values, so a
single abstract payload suffices. -/
structure ShmidDs where
  blob : Nat
deriving DecidableEq

/-- Model of sys::stat::Mode: a permission bit-set carried as its raw bit
pattern, as returned by Mode::bits(). -/
structure Mode where
  bits : Nat
deriving DecidableEq

def Mode.empty : Mode := ⟨0⟩

def Mode.S_IRWXU : Mode := ⟨448⟩

def Mode.S_IRWXG : Mode := ⟨56⟩

def Mode.S_IRWXO : Mode := ⟨7⟩

/-- ShmgetFlag bit-set, carried as its raw bit pattern (ShmgetFlag::bits). -/
structure ShmgetFlag where
  bits : Nat
deriving DecidableEq

/-- libc IPC_CREAT = 0o1000: bit 9. -/
def ShmgetFlag.IPC_CREAT : ShmgetFlag := ⟨512⟩

/-- libc IPC_EXCL = 0o2000: bit 10. -/
def ShmgetFlag.IPC_EXCL : ShmgetFlag := ⟨1024⟩

/-- Bitwise-or composition of ShmgetFlag, the | operator of the bitflags. -/
def ShmgetFlag.union (a b : ShmgetFlag) : ShmgetFlag := ⟨Nat.lor a.bits b.bits⟩

/-- ShmatFlag bit-set, carried as its raw bit pattern (ShmatFlag::bits). -/
structure ShmatFlag where
  bits : Nat
deriving DecidableEq

def ShmatFlag.empty : ShmatFlag := ⟨0⟩

/-- libc SHM_RDONLY = 0o10000: bit 12. -/
def ShmatFlag.SHM_RDONLY : ShmatFlag := ⟨4096⟩

/-- ShmctlFlag set, carried as its raw bit pattern (ShmctlFlag::bits). -/
structure ShmctlFlag where
  bits : Nat
deriving DecidableEq

/-- libc IPC_RMID = 0. -/
def ShmctlFlag.IPC_RMID : ShmctlFlag := ⟨0⟩

/-- libc IPC_SET = 1. -/
def ShmctlFlag.IPC_SET : ShmctlFlag := ⟨1⟩

/-- libc IPC_STAT = 2. -/
def ShmctlFlag.IPC_STAT : ShmctlFlag := ⟨2⟩

/-- The errno value EEXIST (17). -/
def EEXIST : Nat := 17

/-- A single raw syscall invocation, recording exactly the argument values
the wrapper hands to libc. Addresses are Nat, 0 standing for null. -/
inductive Sys where
  | shmget (key : Int) (size : Nat) (shmflg : Nat)
  | shmat (shmid : Int) (shmaddr : Nat) (shmflg : Nat)
  | shmctl (shmid : Int) (cmd : Nat) (buf : Nat)
  | shmdt (shmaddr : Nat)
deriving DecidableEq

/-- Modelled from the spec: the collaborating error-result abstraction
(Errno::result, which lives outside src/) — "an error-result abstraction
mapping the OS's integer error codes to a typed error value". The OS
sentinel return value -1 becomes a typed error carrying the errno current
at the call; any other return is a success carrying the return value
unchanged. -/
def errnoResult (ret : Int) (errno : Nat) : Except Nat Int :=
  if ret = -1 then Except.error errno else Except.ok ret

/-- SharedMemory of T: id is the segment-identifier field, shm is the
address held by the ManuallyDrop-wrapped Box (the Box target address, which
for a handle built by new is the address returned by the attach syscall). -/
structure SharedMemory where
  id : Int
  shm : Nat
deriving DecidableEq

/-- Deref for SharedMemory: deref returns a reference to the Box target,
so a read access resolves to the held address. -/
def SharedMemory.derefAddr (h : SharedMemory) : Nat := h.shm

/-- DerefMut for SharedMemory: deref_mut returns a mutable reference to the
Box target, so a write access resolves to the same held address. -/
def SharedMemory.derefMutAddr (h : SharedMemory) : Nat := h.shm

/-- SharedMemory::shmget. sizeOfT stands for std::mem::size_of::<T>();
ret and errno are the outcome of the one underlying libc::shmget call.
The flag word is mode.bits() | shmget_flag.bits() as in the source. -/
def SharedMemory.shmget (sizeOfT : Nat) (key : Int) (shmget_flag : ShmgetFlag)
    (mode : Mode) (ret : Int) (errno : Nat) : Except Nat Int × List Sys :=
  let size := sizeOfT
  let flags := Nat.lor mode.bits shmget_flag.bits
  (errnoResult ret errno, [Sys.shmget key size flags])

/-- The pointer value the source passes as the shmaddr argument of
libc::shmat. The arm taking some binds the caller's c_void by value into a
fresh local and passes the address of that local (tempSlot), a stack
temporary that is already out of scope at the call; the none arm passes
null. -/
def shmat_addr_arg (shmaddr : Option CVoid) (tempSlot : Nat) : Nat :=
  match shmaddr with
  | some _ => tempSlot
  | none => 0

/-- SharedMemory::shmat. tempSlot is the stack address of the local match
binding holding the by-value copy of the caller's c_void; ret and errno are
the outcome of the one libc::shmat call (sentinel -1 means failure; on
success ret is the mapped address, and the cast to a T pointer keeps the
address value, modelled by Int.toNat). -/
def SharedMemory.shmat (shmid : Int) (shmaddr : Option CVoid)
    (shmat_flag : ShmatFlag) (mode : Mode) (tempSlot : Nat) (ret : Int)
    (errno : Nat) : Except Nat Nat × List Sys :=
  let shmaddr_ptr := shmat_addr_arg shmaddr tempSlot
  let flags := Nat.lor mode.bits shmat_flag.bits
  ((errnoResult ret errno).map Int.toNat, [Sys.shmat shmid shmaddr_ptr flags])

/-- SharedMemory::new: attaches via SharedMemory::shmat and on success wraps
the returned address (Box::from_raw) together with the identifier; a shmat
error propagates unchanged. -/
def SharedMemory.new (shmid : Int) (shmaddr : Option CVoid)
    (shmat_flag : ShmatFlag) (mode : Mode) (tempSlot : Nat) (ret : Int)
    (errno : Nat) : Except Nat SharedMemory × List Sys :=
  match SharedMemory.shmat shmid shmaddr shmat_flag mode tempSlot ret errno with
  | (Except.ok addr, tr) => (Except.ok { id := shmid, shm := addr }, tr)
  | (Except.error e, tr) => (Except.error e, tr)

/-- The pointer value the source passes as the buf argument of libc::shmctl.
The arm taking some binds the caller's shmid_ds by value into a fresh local
and passes the address of that local (copySlot), a stack temporary that is
already out of scope at the call; the none arm passes null. -/
def shmctl_buf_arg (buf : Option ShmidDs) (copySlot : Nat) : Nat :=
  match buf with
  | some _ => copySlot
  | none => 0

/-- SharedMemory::shmctl, which takes the handle by shared borrow: issues
one libc::shmctl call with flag word mode.bits() | shmctl_flag.bits() and
the buffer pointer from shmctl_buf_arg; the handle itself is returned
unchanged as the third component, reflecting the shared borrow. -/
def SharedMemory.shmctl (h : SharedMemory) (shmctl_flag : ShmctlFlag)
    (buf : Option ShmidDs) (mode : Mode) (copySlot : Nat) (ret : Int)
    (errno : Nat) : Except Nat Int × List Sys × SharedMemory :=
  let buf_ptr := shmctl_buf_arg buf copySlot
  let flags := Nat.lor mode.bits shmctl_flag.bits
  (errnoResult ret errno, [Sys.shmctl h.id flags buf_ptr], h)

/-- SharedMemory::shmdt, which takes the handle by shared borrow: detaches
at the deref target of the handle, exactly the held address. -/
def SharedMemory.shmdt (h : SharedMemory) (ret : Int) (errno : Nat) :
    Except Nat Unit × List Sys :=
  let shmaddr_ref := SharedMemory.derefAddr h
  ((errnoResult ret errno).map (fun _ => ()), [Sys.shmdt shmaddr_ref])

/-- Outcome of running the Drop implementation: either normal completion or
a panic (the expect call with message "SharedMemory detach from SysV IPC"). -/
inductive DropOutcome where
  | ok
  | panicked
deriving DecidableEq

/-- Drop for SharedMemory: calls Self::shmdt(self) and expects success, so a
failing detach panics; returns the outcome and the syscalls performed. -/
def SharedMemory.drop (h : SharedMemory) (ret : Int) (errno : Nat) :
    DropOutcome × List Sys :=
  match SharedMemory.shmdt h ret errno with
  | (Except.ok _, tr) => (DropOutcome.ok, tr)
  | (Except.error _, tr) => (DropOutcome.panicked, tr)

/-- The derived Clone implementation of SharedMemory (the derive on line 15
of the source): the derived clone clones each field; cloning the
ManuallyDrop-wrapped Box is Box::clone, which allocates a fresh heap cell —
its address is freshAddr — and deep-copies the pointee into it (this
requires T to implement Clone). -/
def SharedMemory.clone (h : SharedMemory) (freshAddr : Nat) : SharedMemory :=
  { id := h.id, shm := freshAddr }

/-- Memory of T-typed cells addressed by Nat, for stating what a read or a
write through the handle observes. -/
def Mem := Nat → Nat

/-- Writing the value v to address a. -/
def writeMem (mem : Mem) (a v : Nat) : Mem := fun x => if x = a then v else mem x

/-- A write through the handle: DerefMut resolves the access to the deref
target address. -/
def SharedMemory.writeThrough (h : SharedMemory) (v : Nat) (mem : Mem) : Mem :=
  writeMem mem (SharedMemory.derefMutAddr h) v

/-- A read through the handle: Deref resolves the access to the deref
target address. -/
def SharedMemory.readThrough (h : SharedMemory) (mem : Mem) : Nat :=
  mem (SharedMemory.derefAddr h)

/-- Memory of shmid_ds cells addressed by Nat, for stating where a status
query lands. -/
def DsMem := Nat → ShmidDs

/-- Modelled from the spec: the kernel side of a status query (the kernel is
outside this repository) — a query-status control operation copies the
segment status "into the shmid_ds structure pointed to by buf", i.e. the
kernel writes the status record to the buffer pointer it was handed; it
writes nothing through a null pointer. -/
def kernelStatWrite (mem : DsMem) (p : Nat) (status : ShmidDs) : DsMem :=
  if p = 0 then mem else fun x => if x = p then status else mem x

/-- Modelled from the spec: the kernel side of shmget (the kernel is outside
this repository) — "Requesting exclusive creation of a key already allocated
(without detaching/removing first) fails with already exists". allocated is
the set of keys currently allocated; bits 9 and 10 of the flag word are
IPC_CREAT and IPC_EXCL; every other case is abstracted as succeeding with
the identifier otherRet. Returns the raw (return value, errno) pair. -/
def kernelShmget (allocated : Int → Bool) (key : Int) (shmflg : Nat)
    (otherRet : Int) : Int × Nat :=
  if allocated key && Nat.testBit shmflg 9 && Nat.testBit shmflg 10 then
    (-1, EEXIST)
  else
    (otherRet, 0)

/-- SharedMemory::shmget run against the spec-modelled kernel shmget. -/
def SharedMemory.shmget_os (sizeOfT : Nat) (key : Int) (shmget_flag : ShmgetFlag)
    (mode : Mode) (allocated : Int → Bool) (otherRet : Int) : Except Nat Int :=
  let flags := Nat.lor mode.bits shmget_flag.bits
  let ko := kernelShmget allocated key flags otherRet
  (SharedMemory.shmget sizeOfT key shmget_flag mode ko.1 ko.2).1

/-- Modelled from the spec of the claim's premise: the constructors of
c_void are hidden and unstable upstream (std and libc are outside this
repository), so a caller of the public interface can only form the none
value of the optional shmaddr argument. -/
def callerReachableShmaddr (a : Option CVoid) : Prop := a = none

/-- C1: the code violates the not-copyable invariant — SharedMemory derives
Clone, so the public interface does produce a second handle from an existing
one. The clone carries the same segment identifier but holds a fresh heap
address, and dropping it issues the detach syscall on that heap address,
which is not a mapping. -/
theorem c1_clone_in_interface (h : SharedMemory) (freshAddr : Nat) (ret : Int)
    (errno : Nat) :
    (SharedMemory.clone h freshAddr).id = h.id ∧
      (SharedMemory.clone h freshAddr).shm = freshAddr ∧
      (SharedMemory.drop (SharedMemory.clone h freshAddr) ret errno).2 =
        [Sys.shmdt freshAddr] := by
  refine ⟨rfl, rfl, ?_⟩
  by_cases hret : ret = -1 <;>
    simp [SharedMemory.drop, SharedMemory.shmdt, SharedMemory.clone,
      SharedMemory.derefAddr, errnoResult, hret, Except.map]

/-- C2: the code violates the claim — when a value is supplied for the
shmaddr parameter, the pointer handed to the attach syscall is the stack
address of the local match binding (tempSlot), independent of the supplied
value and never a caller-chosen address (the optional c_void parameter
cannot carry an address); only the absent case behaves as claimed, passing
the null pointer. -/
theorem c2_hint_not_passed (shmid : Int) (v : CVoid) (aflag : ShmatFlag)
    (mode : Mode) (tempSlot : Nat) (ret : Int) (errno : Nat) :
    shmat_addr_arg (some v) tempSlot = tempSlot ∧
      (SharedMemory.shmat shmid (some v) aflag mode tempSlot ret errno).2 =
        [Sys.shmat shmid tempSlot (Nat.lor mode.bits aflag.bits)] ∧
      (SharedMemory.shmat shmid none aflag mode tempSlot ret errno).2 =
        [Sys.shmat shmid 0 (Nat.lor mode.bits aflag.bits)] :=
  ⟨rfl, rfl, rfl⟩

/-- C3: the code violates the claim — the status buffer is taken by value,
and the control syscall receives the address of the by-value local copy
(copySlot), not a pointer to the caller's own buffer; a status query
therefore writes the segment status into that dead temporary, and every
cell other than the temporary — in particular wherever the caller keeps
their own copy — is unchanged, so the caller cannot observe the status. -/
theorem c3_stat_unobservable (h : SharedMemory) (cflag : ShmctlFlag)
    (b : ShmidDs) (mode : Mode) (copySlot : Nat) (ret : Int) (errno : Nat) :
    (SharedMemory.shmctl h cflag (some b) mode copySlot ret errno).2.1 =
        [Sys.shmctl h.id (Nat.lor mode.bits cflag.bits) copySlot] ∧
      ∀ (mem : DsMem) (status : ShmidDs) (callerAddr : Nat),
        callerAddr ≠ copySlot →
        kernelStatWrite mem (shmctl_buf_arg (some b) copySlot) status callerAddr =
          mem callerAddr := by
  refine ⟨rfl, ?_⟩
  intro mem status callerAddr hne
  by_cases hz : copySlot = 0 <;>
    simp [kernelStatWrite, shmctl_buf_arg, hz, hne]

/-- Closed instance of c3_stat_unobservable at concrete inputs: the status
written by a query with a supplied buffer lands at the temporary address
2000 and the caller's cell at 1000 still holds its old content. -/
theorem c3_stat_unobservable_witness :
    kernelStatWrite (fun _ => ⟨0⟩) (shmctl_buf_arg (some ⟨5⟩) 2000) ⟨9⟩ 1000 =
      (fun _ => (⟨0⟩ : ShmidDs)) 1000 :=
  (c3_stat_unobservable ⟨1, 4096⟩ ShmctlFlag.IPC_STAT ⟨5⟩ Mode.empty 2000 0 0).2
    (fun _ => ⟨0⟩) ⟨9⟩ 1000 (by decide)

/-- C4: the Drop implementation performs exactly one detach syscall, at
exactly the address the handle is mapped at (its deref target), and panics
exactly when that syscall fails; a success completes without panic. -/
theorem c4_drop_detaches_once_loudly (h : SharedMemory) (ret : Int)
    (errno : Nat) :
    (SharedMemory.drop h ret errno).2 = [Sys.shmdt (SharedMemory.derefAddr h)] ∧
      ((SharedMemory.drop h ret errno).1 = DropOutcome.panicked ↔ ret = -1) ∧
      ((SharedMemory.drop h ret errno).1 = DropOutcome.ok ↔ ret ≠ -1) := by
  by_cases hret : ret = -1 <;>
    simp [SharedMemory.drop, SharedMemory.shmdt, SharedMemory.derefAddr,
      errnoResult, hret, Except.map]

/-- C5: for every type size, key, flag set and mode, the one shmget syscall
issued by SharedMemory::shmget carries exactly size_of::<T>() as its size
argument. -/
theorem c5_size_is_sizeof (sizeOfT : Nat) (key : Int) (gflag : ShmgetFlag)
    (mode : Mode) (ret : Int) (errno : Nat) :
    (SharedMemory.shmget sizeOfT key gflag mode ret errno).2 =
      [Sys.shmget key sizeOfT (Nat.lor mode.bits gflag.bits)] :=
  rfl

/-- C6: shmget, shmctl and new each issue exactly one syscall, return the
typed error carrying exactly the current errno when that syscall fails
(sentinel -1), and otherwise return the syscall's result unchanged — for
new, a handle wrapping the returned mapped address. -/
theorem c6_errors_passthrough (sizeOfT : Nat) (key : Int) (gflag : ShmgetFlag)
    (h : SharedMemory) (cflag : ShmctlFlag) (buf : Option ShmidDs)
    (shmid : Int) (shmaddr : Option CVoid) (aflag : ShmatFlag) (mode : Mode)
    (tempSlot copySlot : Nat) (ret : Int) (errno : Nat) :
    (if ret = -1 then
        (SharedMemory.shmget sizeOfT key gflag mode ret errno).1 =
          Except.error errno
      else
        (SharedMemory.shmget sizeOfT key gflag mode ret errno).1 =
          Except.ok ret) ∧
      (SharedMemory.shmget sizeOfT key gflag mode ret errno).2.length = 1 ∧
      (if ret = -1 then
        (SharedMemory.shmctl h cflag buf mode copySlot ret errno).1 =
          Except.error errno
      else
        (SharedMemory.shmctl h cflag buf mode copySlot ret errno).1 =
          Except.ok ret) ∧
      (SharedMemory.shmctl h cflag buf mode copySlot ret errno).2.1.length = 1 ∧
      (if ret = -1 then
        (SharedMemory.new shmid shmaddr aflag mode tempSlot ret errno).1 =
          Except.error errno
      else
        (SharedMemory.new shmid shmaddr aflag mode tempSlot ret errno).1 =
          Except.ok { id := shmid, shm := ret.toNat }) ∧
      (SharedMemory.new shmid shmaddr aflag mode tempSlot ret errno).2.length = 1 := by
  by_cases hret : ret = -1 <;>
    simp [SharedMemory.shmget, SharedMemory.shmctl, SharedMemory.new,
      SharedMemory.shmat, errnoResult, hret, Except.map]

/-- C7: for every handle successfully constructed by new, both the read
deref and the write deref resolve to exactly the mapped address returned by
the attach syscall, and a write through the handle followed by a read
through the handle observes the written value. -/
theorem c7_deref_is_mapping (shmid : Int) (shmaddr : Option CVoid)
    (aflag : ShmatFlag) (mode : Mode) (tempSlot : Nat) (ret : Int)
    (errno : Nat) (h : SharedMemory) (tr : List Sys)
    (hok : SharedMemory.new shmid shmaddr aflag mode tempSlot ret errno =
      (Except.ok h, tr)) (v : Nat) (mem : Mem) :
    SharedMemory.derefAddr h = ret.toNat ∧
      SharedMemory.derefMutAddr h = ret.toNat ∧
      SharedMemory.readThrough h (SharedMemory.writeThrough h v mem) = v := by
  by_cases hret : ret = -1
  · exfalso
    rw [SharedMemory.new, SharedMemory.shmat] at hok
    simp [errnoResult, hret, Except.map] at hok
  · have hh : h = { id := shmid, shm := ret.toNat } := by
      rw [SharedMemory.new, SharedMemory.shmat] at hok
      simp [errnoResult, hret, Except.map] at hok
      exact hok.1.symm
    subst hh
    refine ⟨rfl, rfl, ?_⟩
    simp [SharedMemory.readThrough, SharedMemory.writeThrough, writeMem,
      SharedMemory.derefAddr, SharedMemory.derefMutAddr]

/-- Closed instance of c7_deref_is_mapping: attaching at kernel-chosen
address 4096 gives a handle that dereferences to 4096 and round-trips the
value 3 through the mapping. -/
theorem c7_deref_is_mapping_witness :
    SharedMemory.derefAddr { id := 7, shm := 4096 } = (4096 : Int).toNat ∧
      SharedMemory.derefMutAddr { id := 7, shm := 4096 } = (4096 : Int).toNat ∧
      SharedMemory.readThrough { id := 7, shm := 4096 }
        (SharedMemory.writeThrough { id := 7, shm := 4096 } 3 (fun _ => 0)) = 3 :=
  c7_deref_is_mapping 7 none ShmatFlag.empty Mode.empty 0 4096 0
    { id := 7, shm := 4096 } [Sys.shmat 7 0 0] rfl 3 (fun _ => 0)

/-- C8: against the spec-modelled kernel, shmget on a key that is already
allocated, with the IPC_CREAT and IPC_EXCL bits both set in the flag word,
returns the typed error carrying EEXIST. -/
theorem c8_excl_create_eexist (sizeOfT : Nat) (key : Int) (gflag : ShmgetFlag)
    (mode : Mode) (allocated : Int → Bool) (otherRet : Int)
    (hall : allocated key = true)
    (hcreat : Nat.testBit gflag.bits 9 = true)
    (hexcl : Nat.testBit gflag.bits 10 = true) :
    SharedMemory.shmget_os sizeOfT key gflag mode allocated otherRet =
      Except.error EEXIST := by
  have h9 : Nat.testBit (Nat.lor mode.bits gflag.bits) 9 = true := by
    show Nat.testBit (mode.bits ||| gflag.bits) 9 = true
    rw [Nat.testBit_lor, hcreat, Bool.or_true]
  have h10 : Nat.testBit (Nat.lor mode.bits gflag.bits) 10 = true := by
    show Nat.testBit (mode.bits ||| gflag.bits) 10 = true
    rw [Nat.testBit_lor, hexcl, Bool.or_true]
  simp [SharedMemory.shmget_os, kernelShmget, hall, h9, h10,
    SharedMemory.shmget, errnoResult]

/-- Closed instance of c8_excl_create_eexist: exclusive creation of the
already-allocated key 1337 with IPC_CREAT and IPC_EXCL set and full
permissions fails with EEXIST. -/
theorem c8_excl_create_eexist_witness :
    SharedMemory.shmget_os 8 1337
      (ShmgetFlag.union ShmgetFlag.IPC_CREAT ShmgetFlag.IPC_EXCL)
      ⟨511⟩ (fun _ => true) 5 = Except.error EEXIST :=
  c8_excl_create_eexist 8 1337
    (ShmgetFlag.union ShmgetFlag.IPC_CREAT ShmgetFlag.IPC_EXCL)
    ⟨511⟩ (fun _ => true) 5 rfl (by decide) (by decide)

/-- C9: shmctl takes the handle by shared borrow and leaves it unchanged —
the segment identifier and the mapped address are the same before and after
the call, for every control flag (including IPC_RMID), buffer and mode. -/
theorem c9_shmctl_frame (h : SharedMemory) (cflag : ShmctlFlag)
    (buf : Option ShmidDs) (mode : Mode) (copySlot : Nat) (ret : Int)
    (errno : Nat) :
    ((SharedMemory.shmctl h cflag buf mode copySlot ret errno).2.2).id = h.id ∧
      ((SharedMemory.shmctl h cflag buf mode copySlot ret errno).2.2).shm = h.shm :=
  ⟨rfl, rfl⟩

/-- C10: every caller-reachable shmaddr argument is the absent one (no
c_void value is caller-constructible), so the attach syscall always
receives the null pointer and the branch of shmat_addr_arg taking a present
value is unreachable from the public interface. -/
theorem c10_hint_always_null (a : Option CVoid) (hc : callerReachableShmaddr a)
    (shmid : Int) (aflag : ShmatFlag) (mode : Mode) (tempSlot : Nat)
    (ret : Int) (errno : Nat) :
    a = none ∧
      shmat_addr_arg a tempSlot = 0 ∧
      (SharedMemory.shmat shmid a aflag mode tempSlot ret errno).2 =
        [Sys.shmat shmid 0 (Nat.lor mode.bits aflag.bits)] := by
  have ha : a = none := hc
  subst ha
  exact ⟨rfl, rfl, rfl⟩

/-- Closed instance of c10_hint_always_null: the absent shmaddr argument
makes the attach syscall receive the null pointer. -/
theorem c10_hint_always_null_witness :
    (none : Option CVoid) = none ∧
      shmat_addr_arg none 5 = 0 ∧
      (SharedMemory.shmat 7 none ShmatFlag.empty Mode.empty 5 4096 0).2 =
        [Sys.shmat 7 0 (Nat.lor Mode.empty.bits ShmatFlag.empty.bits)] :=
  c10_hint_always_null none rfl 7 ShmatFlag.empty Mode.empty 5 4096 0

end SysVShm
